import Mathlib

/-!
Shallow embedding of `src/backend/app.py` (a minimal Flask chat backend).

Persistent state (the `data/` directory) is modelled by `ServerState`:
  * `users`    — rows of `data/users.csv`    (Credential Store),
  * `messages` — rows of `data/messages.csv` (Message Log),
  * `uploads`  — files of `data/uploads`     (Upload Store), name and byte size.

Handlers become pure functions from state (plus the request payload and the
server-generated timestamps) to a response and a new state.  The SHA-256
digest (`hash_password`) and werkzeug's `secure_filename` are kept abstract
as function parameters: no property below depends on their internals.

In a CSV cell an absent value and the empty string are indistinguishable
(pandas writes `NaN` as an empty field and reads an empty field back as
`NaN`), so the `type` column of a message row is modelled as a `String`
where `""` stands for the absent/NaN cell.
-/

/-- A row of `data/users.csv`: columns `username,password_hash`. -/
structure UserRow where
  username : String
  password_hash : String
deriving Repr, DecidableEq

/-- A row of `data/messages.csv`: columns `timestamp,username,message,type`.
`type = ""` models an absent (NaN) cell. -/
structure MessageRow where
  timestamp : String
  username : String
  message : String
  type : String
deriving Repr, DecidableEq

/-- A file stored in `data/uploads`: its name and its size in bytes. -/
structure UploadFile where
  name : String
  size : Nat
deriving Repr, DecidableEq

/-- The whole persistent state rooted at the `data/` directory. -/
structure ServerState where
  users : List UserRow
  messages : List MessageRow
  uploads : List UploadFile
deriving Repr, DecidableEq

/-- `ALLOWED_EXTENSIONS = {'png', 'jpg', 'jpeg', 'gif'}` (app.py line 32). -/
def ALLOWED_EXTENSIONS : List String := ["png", "jpg", "jpeg", "gif"]

/-- `MAX_DATA_SIZE = 400 * 1024 * 1024` (app.py line 33). -/
def MAX_DATA_SIZE : Nat := 400 * 1024 * 1024

/-- The characters after the last `'.'` of a character list, or `none` when
no `'.'` occurs. -/
def afterLastDotAux : List Char → Option (List Char)
  | [] => none
  | c :: rest =>
    match afterLastDotAux rest with
    | some ext => some ext
    | none => if c = '.' then some rest else none

/-- `'.' in filename` (Python substring membership for the one-char dot). -/
def containsDot (filename : String) : Bool :=
  filename.data.contains '.'

/-- `filename.rsplit('.', 1)[1]` — the substring after the last `'.'`
(meaningful only when a dot occurs, exactly as in the guarded Python
expression; a dotless input is returned whole, unused by `allowed_file`). -/
def afterLastDot (filename : String) : String :=
  match afterLastDotAux filename.data with
  | some ext => String.mk ext
  | none => filename

/-- Python's `str.lower()` (character-wise lowercasing; extensions are ASCII). -/
def lowerStr (s : String) : String :=
  String.mk (s.data.map Char.toLower)

/-- `allowed_file` (app.py lines 35-36):
`'.' in filename and filename.rsplit('.', 1)[1].lower() in ALLOWED_EXTENSIONS`. -/
def allowed_file (filename : String) : Bool :=
  containsDot filename && ALLOWED_EXTENSIONS.contains (lowerStr (afterLastDot filename))

/-- Serialization of one message row as a line of `data/messages.csv`
(pandas `to_csv`, no quoting needed for the size model). -/
def messageRowCsv (m : MessageRow) : String :=
  m.timestamp ++ "," ++ m.username ++ "," ++ m.message ++ "," ++ m.type ++ "\n"

/-- The byte content of `data/messages.csv`: header row then one line per message. -/
def messagesCsv (ms : List MessageRow) : String :=
  "timestamp,username,message,type\n" ++ String.join (ms.map messageRowCsv)

/-- Serialization of one user row as a line of `data/users.csv`. -/
def userRowCsv (u : UserRow) : String :=
  u.username ++ "," ++ u.password_hash ++ "\n"

/-- The byte content of `data/users.csv`: header row then one line per user. -/
def usersCsv (us : List UserRow) : String :=
  "username,password_hash\n" ++ String.join (us.map userRowCsv)

/-- `get_data_size` (app.py lines 41-48): sum of the sizes of every file under
`data/` — the two CSV files plus every upload blob. -/
def get_data_size (s : ServerState) : Nat :=
  (messagesCsv s.messages).length + (usersCsv s.users).length
    + (s.uploads.map UploadFile.size).sum

/-- `clear_data` (app.py lines 50-68): rewrite `messages.csv` with only the
header (schema preserved) and unlink every file in `data/uploads`; the users
file is not touched. -/
def clear_data (s : ServerState) : ServerState :=
  { s with messages := [], uploads := [] }

/-- `check_and_clear_data` (app.py lines 70-78): clear exactly when the
measured size strictly exceeds `MAX_DATA_SIZE`. -/
def check_and_clear_data (s : ServerState) : ServerState :=
  if get_data_size s > MAX_DATA_SIZE then clear_data s else s

/-- A handler's HTTP result: `jsonify(payload)` with implicit status 200 on
success, or `(jsonify({'error': msg}), code)` on failure. -/
inductive Resp where
  | success (payload : List (String × String))
  | error (msg : String) (code : Nat)
deriving Repr, DecidableEq

/-- The HTTP status code carried by a response (Flask defaults `jsonify`
responses to 200). -/
def Resp.status : Resp → Nat
  | .success _ => 200
  | .error _ c => c

/-- JSON body of `POST /api/register` and `POST /api/login`.  A missing key
behaves exactly like an empty string under Python's `not x` truthiness check,
so both are modelled by `""`. -/
structure CredPayload where
  username : String
  password : String
deriving Repr, DecidableEq

/-- `register` (app.py lines 80-109).  `data = none` models a request with
no JSON body. -/
def register (hash_password : String → String) (s : ServerState)
    (data : Option CredPayload) : Resp × ServerState :=
  match data with
  | none => (.error "No JSON data received" 400, s)
  | some d =>
    if d.username = "" ∨ d.password = "" then
      (.error "Username and password are required" 400, s)
    else if d.username ∈ s.users.map UserRow.username then
      (.error "Username already exists" 400, s)
    else
      (.success [("status", "success"), ("message", "User registered successfully")],
        { s with users := s.users ++ [⟨d.username, hash_password d.password⟩] })

/-- `login` (app.py lines 111-136).  Reads but never writes the state, so only
the response is returned.  `users[users['username'] == username]` followed by
`.values[0]` picks the first matching row, i.e. `List.find?`. -/
def login (hash_password : String → String) (s : ServerState)
    (data : Option CredPayload) : Resp :=
  match data with
  | none => .error "No JSON data received" 400
  | some d =>
    if d.username = "" ∨ d.password = "" then
      .error "Username and password are required" 400
    else
      match s.users.find? (fun r => r.username == d.username) with
      | none => .error "Invalid username or password" 401
      | some r =>
        if r.password_hash ≠ hash_password d.password then
          .error "Invalid username or password" 401
        else
          .success [("status", "success"), ("username", d.username)]

/-- JSON body of `POST /api/messages`.  `type` stays an `Option` because
`data.get('type', 'text')` defaults only when the key is absent. -/
structure MessagePayload where
  username : String
  message : String
  type : Option String
deriving Repr, DecidableEq

/-- `send_message` (app.py lines 199-235): validate fields, reject unknown
usernames with 401, run the retention check, then append one row to the
(possibly just cleared) message log. -/
def send_message (s : ServerState) (now_iso : String)
    (data : Option MessagePayload) : Resp × ServerState :=
  match data with
  | none => (.error "No JSON data received" 400, s)
  | some d =>
    let message_type := d.type.getD "text"
    if d.username = "" ∨ d.message = "" then
      (.error "Username and message are required" 400, s)
    else if d.username ∉ s.users.map UserRow.username then
      (.error "User not found" 401, s)
    else
      let s1 := check_and_clear_data s
      (.success [("status", "success"), ("message", "Message sent successfully")],
        { s1 with messages :=
            s1.messages ++ [⟨now_iso, d.username, d.message, message_type⟩] })

/-- The file part of a multipart `POST /api/upload` request: the original
client filename and the blob's byte size. -/
structure FilePart where
  filename : String
  size : Nat
deriving Repr, DecidableEq

/-- `upload_image` (app.py lines 138-180).  `file = none` models
`'file' not in request.files`.  `secure_filename` is werkzeug's sanitizer and
`now_ts` the `datetime.now().timestamp()` prefix; on an allowed extension the
handler runs the retention check, saves the blob, and appends an image row. -/
def upload_image (secure_filename : String → String) (s : ServerState)
    (now_iso now_ts : String) (file : Option FilePart) (username : String) :
    Resp × ServerState :=
  match file with
  | none => (.error "No file part" 400, s)
  | some f =>
    if username = "" then
      (.error "Username is required" 400, s)
    else if f.filename = "" then
      (.error "No selected file" 400, s)
    else if allowed_file f.filename then
      let s1 := check_and_clear_data s
      let filename := secure_filename (now_ts ++ "_" ++ f.filename)
      let s2 := { s1 with
        uploads := s1.uploads ++ [⟨filename, f.size⟩],
        messages := s1.messages ++ [⟨now_iso, username, filename, "image"⟩] }
      (.success [("status", "success"), ("filename", filename)], s2)
    else
      (.error "File type not allowed" 400, s)

/-- `get_messages` (app.py lines 189-197): read every row in file order and
`fillna('text')` the `type` column (an empty CSV cell reads back as NaN). -/
def get_messages (s : ServerState) : List MessageRow :=
  s.messages.map fun m =>
    { m with type := if m.type = "" then "text" else m.type }

/-! ## Helper lemmas -/

/-- A username outside the `username` column is never found by the row filter. -/
theorem find?_username_eq_none (us : List UserRow) (u : String)
    (h : u ∉ us.map UserRow.username) :
    us.find? (fun r => r.username == u) = none := by
  refine List.find?_eq_none.2 fun r hr => ?_
  simp only [beq_iff_eq]
  intro he
  exact h (he ▸ List.mem_map_of_mem UserRow.username hr)

/-- Looking up a freshly appended row: earlier rows do not match, the new one does. -/
theorem find?_username_append (us : List UserRow) (u ph : String)
    (h : u ∉ us.map UserRow.username) :
    (us ++ [UserRow.mk u ph]).find? (fun r => r.username == u) =
      some (UserRow.mk u ph) := by
  rw [List.find?_append, find?_username_eq_none us u h]
  simp [List.find?]

/-! ## Claims -/

/-- C9: a filename with no `'.'` character (for example exactly "png") is
rejected by the file-type check, because the extension is the lowercased
substring after the last dot and a dotless name has none. -/
theorem allowedFile_requires_dot (filename : String)
    (h : containsDot filename = false) : allowed_file filename = false := by
  simp [allowed_file, h]

/-- Witness for C9 at the concrete filename "png". -/
theorem allowedFile_requires_dot_witness :
    (containsDot "png" = false) ∧ allowed_file "png" = false :=
  ⟨by decide, allowedFile_requires_dot "png" (by decide)⟩

/-- C10: the retention check is strict: at exactly `400 * 1024 * 1024` bytes
`check_and_clear_data` leaves the whole state (Message Log, Upload Store and
all) unchanged. -/
theorem checkAndClear_strict_at_ceiling (s : ServerState)
    (h : get_data_size s = MAX_DATA_SIZE) : check_and_clear_data s = s := by
  simp [check_and_clear_data, h]

/-- Witness for C10: a state whose measured size is exactly the ceiling. -/
theorem checkAndClear_strict_at_ceiling_witness :
    get_data_size ⟨[], [], [⟨"blob", 419430345⟩]⟩ = MAX_DATA_SIZE ∧
      check_and_clear_data ⟨[], [], [⟨"blob", 419430345⟩]⟩ =
        (⟨[], [], [⟨"blob", 419430345⟩]⟩ : ServerState) :=
  ⟨by decide, checkAndClear_strict_at_ceiling _ (by decide)⟩

/-- C5: an upload whose filename fails the extension allow-list is rejected
with `File type not allowed` (status 400) and the state — Upload Store and
Message Log included — is exactly unchanged. -/
theorem upload_disallowedExtension (secure_filename : String → String)
    (s : ServerState) (now_iso now_ts : String) (f : FilePart) (username : String)
    (hu : username ≠ "") (hf : f.filename ≠ "")
    (hext : allowed_file f.filename = false) :
    upload_image secure_filename s now_iso now_ts (some f) username =
      (.error "File type not allowed" 400, s) := by
  simp [upload_image, hu, hf, hext]

/-- Witness for C5: uploading "notes.txt" is rejected and changes nothing. -/
theorem upload_disallowedExtension_witness :
    upload_image id ⟨[], [], []⟩ "t0" "123" (some ⟨"notes.txt", 5⟩) "bob" =
      (.error "File type not allowed" 400, ⟨[], [], []⟩) :=
  upload_disallowedExtension id ⟨[], [], []⟩ "t0" "123" ⟨"notes.txt", 5⟩ "bob"
    (by decide) (by decide) (by decide)

/-- C6: `GET /messages` returns one record per stored row, in file order,
each record keeping its timestamp/username/message and carrying the stored
type with the empty (absent) cell defaulted to "text" — no filtering and no
reordering. -/
theorem getMessages_ordered_defaulted (s : ServerState) :
    (get_messages s).length = s.messages.length ∧
    ∀ i : Nat, (get_messages s)[i]? = (s.messages[i]?).map
      (fun m => ⟨m.timestamp, m.username, m.message,
        if m.type = "" then "text" else m.type⟩) := by
  refine ⟨by simp [get_messages], fun i => ?_⟩
  simp [get_messages, List.getElem?_map]

/-- C2: posting a text message under a username absent from the Credential
Store fails with `User not found` and leaves the state untouched, so a
subsequent `GET /messages` returns exactly what it returned before. -/
theorem sendMessage_unknownUser (s : ServerState) (now_iso u m : String)
    (t : Option String) (hu : u ≠ "") (hm : m ≠ "")
    (hunk : u ∉ s.users.map UserRow.username) :
    send_message s now_iso (some ⟨u, m, t⟩) = (.error "User not found" 401, s) ∧
    get_messages (send_message s now_iso (some ⟨u, m, t⟩)).2 = get_messages s := by
  have h1 : send_message s now_iso (some ⟨u, m, t⟩) = (.error "User not found" 401, s) := by
    simp [send_message, hu, hm, hunk]
  exact ⟨h1, by rw [h1]⟩

/-- Witness for C2: posting as unregistered "bob" on the empty state. -/
theorem sendMessage_unknownUser_witness :
    send_message ⟨[], [], []⟩ "t0" (some ⟨"bob", "hi", none⟩) =
      (.error "User not found" 401, ⟨[], [], []⟩) :=
  (sendMessage_unknownUser ⟨[], [], []⟩ "t0" "bob" "hi" none
    (by decide) (by decide) (by simp)).1

/-- C3: registering a fresh username succeeds; a second registration of the
same username (any non-empty password) fails with `Username already exists`;
and an empty username or password fails with the missing-field error. -/
theorem register_duplicate_and_missing (hp : String → String) (s : ServerState)
    (u p p2 : String) (hu : u ≠ "") (hpw : p ≠ "") (hpw2 : p2 ≠ "")
    (hfresh : u ∉ s.users.map UserRow.username) :
    (register hp s (some ⟨u, p⟩)).1 =
      .success [("status", "success"), ("message", "User registered successfully")] ∧
    (register hp (register hp s (some ⟨u, p⟩)).2 (some ⟨u, p2⟩)).1 =
      .error "Username already exists" 400 ∧
    (∀ q : String, (register hp s (some ⟨"", q⟩)).1 =
      .error "Username and password are required" 400) ∧
    (∀ q : String, (register hp s (some ⟨q, ""⟩)).1 =
      .error "Username and password are required" 400) := by
  refine ⟨?_, ?_, ?_, ?_⟩
  · simp [register, hu, hpw, hfresh]
  · simp [register, hu, hpw, hpw2, hfresh]
  · intro q; simp [register]
  · intro q; simp [register]

/-- Witness for C3: register "alice" twice on the empty state. -/
theorem register_duplicate_and_missing_witness :
    (register id ⟨[], [], []⟩ (some ⟨"alice", "secret"⟩)).1 =
      .success [("status", "success"), ("message", "User registered successfully")] ∧
    (register id (register id ⟨[], [], []⟩ (some ⟨"alice", "secret"⟩)).2
        (some ⟨"alice", "other"⟩)).1 = .error "Username already exists" 400 :=
  ⟨(register_duplicate_and_missing id ⟨[], [], []⟩ "alice" "secret" "other"
      (by decide) (by decide) (by decide) (by simp)).1,
   (register_duplicate_and_missing id ⟨[], [], []⟩ "alice" "secret" "other"
      (by decide) (by decide) (by decide) (by simp)).2.1⟩

/-- C4: after registering, login with the exact pair succeeds and returns the
username; with the same username and a different password it fails with
`Invalid username or password` (401); a username absent from the Credential
Store yields that same error kind. -/
theorem login_after_register (hp : String → String) (hinj : Function.Injective hp)
    (s : ServerState) (u p : String) (hu : u ≠ "") (hpw : p ≠ "")
    (hfresh : u ∉ s.users.map UserRow.username) :
    login hp (register hp s (some ⟨u, p⟩)).2 (some ⟨u, p⟩) =
      .success [("status", "success"), ("username", u)] ∧
    (∀ p2 : String, p2 ≠ "" → p2 ≠ p →
      login hp (register hp s (some ⟨u, p⟩)).2 (some ⟨u, p2⟩) =
        .error "Invalid username or password" 401) ∧
    (∀ v q : String, v ≠ "" → q ≠ "" →
      v ∉ (register hp s (some ⟨u, p⟩)).2.users.map UserRow.username →
      login hp (register hp s (some ⟨u, p⟩)).2 (some ⟨v, q⟩) =
        .error "Invalid username or password" 401) := by
  have hreg : (register hp s (some ⟨u, p⟩)).2 =
      { s with users := s.users ++ [UserRow.mk u (hp p)] } := by
    simp [register, hu, hpw, hfresh]
  refine ⟨?_, ?_, ?_⟩
  · rw [hreg]
    simp [login, hu, hpw, find?_username_append s.users u (hp p) hfresh]
  · intro p2 h2 hne
    have hh : hp p ≠ hp p2 := fun hc => hne (hinj hc).symm
    rw [hreg]
    simp [login, hu, h2, find?_username_append s.users u (hp p) hfresh, hh]
  · intro v q hv hq hvfresh
    rw [hreg] at hvfresh ⊢
    simp [login, hv, hq, find?_username_eq_none _ v hvfresh]

/-- Witness for C4: "alice"/"secret" then a correct and a wrong login. -/
theorem login_after_register_witness :
    login id (register id ⟨[], [], []⟩ (some ⟨"alice", "secret"⟩)).2
      (some ⟨"alice", "secret"⟩) = .success [("status", "success"), ("username", "alice")] ∧
    login id (register id ⟨[], [], []⟩ (some ⟨"alice", "secret"⟩)).2
      (some ⟨"alice", "wrong"⟩) = .error "Invalid username or password" 401 :=
  ⟨(login_after_register id (fun _ _ h => h) ⟨[], [], []⟩ "alice" "secret"
      (by decide) (by decide) (by simp)).1,
   (login_after_register id (fun _ _ h => h) ⟨[], [], []⟩ "alice" "secret"
      (by decide) (by decide) (by simp)).2.1 "wrong" (by decide) (by decide)⟩

/-- C7: with a non-empty username and an allowed extension, upload succeeds
and appends an image Message even when the username is not a registered User —
the upload path never consults the Credential Store. -/
theorem upload_noUserCheck (sf : String → String) (s : ServerState)
    (now_iso now_ts : String) (f : FilePart) (username : String)
    (hu : username ≠ "") (hext : allowed_file f.filename = true)
    (_hunreg : username ∉ s.users.map UserRow.username) :
    (upload_image sf s now_iso now_ts (some f) username).1 =
      .success [("status", "success"), ("filename", sf (now_ts ++ "_" ++ f.filename))] ∧
    (upload_image sf s now_iso now_ts (some f) username).2.messages =
      (check_and_clear_data s).messages ++
        [MessageRow.mk now_iso username (sf (now_ts ++ "_" ++ f.filename)) "image"] ∧
    (upload_image sf s now_iso now_ts (some f) username).2.uploads =
      (check_and_clear_data s).uploads ++
        [UploadFile.mk (sf (now_ts ++ "_" ++ f.filename)) f.size] := by
  have hf : f.filename ≠ "" := by
    intro h
    rw [h] at hext
    exact absurd hext (by decide)
  refine ⟨?_, ?_, ?_⟩ <;> simp [upload_image, hu, hf, hext]

/-- Witness for C7: unregistered "ghost" uploads "a.png" successfully. -/
theorem upload_noUserCheck_witness :
    (upload_image id ⟨[], [], []⟩ "t0" "123" (some ⟨"a.png", 5⟩) "ghost").1 =
      .success [("status", "success"), ("filename", "123_a.png")] ∧
    (upload_image id ⟨[], [], []⟩ "t0" "123" (some ⟨"a.png", 5⟩) "ghost").2.messages =
      (check_and_clear_data ⟨[], [], []⟩).messages ++
        [MessageRow.mk "t0" "ghost" "123_a.png" "image"] :=
  ⟨(upload_noUserCheck id ⟨[], [], []⟩ "t0" "123" ⟨"a.png", 5⟩ "ghost"
      (by decide) (by decide) (by simp)).1,
   (upload_noUserCheck id ⟨[], [], []⟩ "t0" "123" ⟨"a.png", 5⟩ "ghost"
      (by decide) (by decide) (by simp)).2.1⟩

/-- C1: once the persisted size exceeds the 400 MiB ceiling, the next write —
text post or upload — triggers the reclaim: the Message Log is truncated
before the new row is appended, the Upload Store is emptied, the Credential
Store is untouched, and a previously registered user still logs in
successfully afterwards. -/
theorem reclaim_on_next_write (hp sf : String → String) (s : ServerState)
    (now_iso now_ts u p m : String) (t : Option String) (f : FilePart)
    (hu : u ≠ "") (hpw : p ≠ "") (hm : m ≠ "")
    (hcred : s.users.find? (fun r => r.username == u) = some (UserRow.mk u (hp p)))
    (hext : allowed_file f.filename = true)
    (hover : get_data_size s > MAX_DATA_SIZE) :
    check_and_clear_data s = ServerState.mk s.users [] [] ∧
    (send_message s now_iso (some ⟨u, m, t⟩)).2 =
      ServerState.mk s.users [MessageRow.mk now_iso u m (t.getD "text")] [] ∧
    (upload_image sf s now_iso now_ts (some f) u).2 =
      ServerState.mk s.users
        [MessageRow.mk now_iso u (sf (now_ts ++ "_" ++ f.filename)) "image"]
        [UploadFile.mk (sf (now_ts ++ "_" ++ f.filename)) f.size] ∧
    login hp (check_and_clear_data s) (some ⟨u, p⟩) =
      .success [("status", "success"), ("username", u)] ∧
    login hp (send_message s now_iso (some ⟨u, m, t⟩)).2 (some ⟨u, p⟩) =
      .success [("status", "success"), ("username", u)] := by
  have hclear : check_and_clear_data s = ServerState.mk s.users [] [] := by
    simp [check_and_clear_data, clear_data, hover]
  have hmem : u ∈ s.users.map UserRow.username :=
    List.mem_map_of_mem UserRow.username (List.mem_of_find?_eq_some hcred)
  have hf : f.filename ≠ "" := by
    intro h
    rw [h] at hext
    exact absurd hext (by decide)
  have hsend : (send_message s now_iso (some ⟨u, m, t⟩)).2 =
      ServerState.mk s.users [MessageRow.mk now_iso u m (t.getD "text")] [] := by
    simp [send_message, hu, hm, hmem, hclear]
  refine ⟨hclear, hsend, ?_, ?_, ?_⟩
  · simp [upload_image, hu, hf, hext, hclear]
  · rw [hclear]
    simp [login, hu, hpw, hcred]
  · rw [hsend]
    simp [login, hu, hpw, hcred]

/-- Witness for C1: a 500 MB blob forces the reclaim on "alice"'s next post;
her credentials survive and her login still succeeds. -/
theorem reclaim_on_next_write_witness :
    (send_message ⟨[⟨"alice", "secret"⟩], [], [⟨"blob", 500000000⟩]⟩ "t1"
        (some ⟨"alice", "hi", none⟩)).2 =
      ServerState.mk [⟨"alice", "secret"⟩] [MessageRow.mk "t1" "alice" "hi" "text"] [] ∧
    login id (send_message ⟨[⟨"alice", "secret"⟩], [], [⟨"blob", 500000000⟩]⟩ "t1"
        (some ⟨"alice", "hi", none⟩)).2 (some ⟨"alice", "secret"⟩) =
      .success [("status", "success"), ("username", "alice")] :=
  ⟨(reclaim_on_next_write id id ⟨[⟨"alice", "secret"⟩], [], [⟨"blob", 500000000⟩]⟩
      "t1" "123" "alice" "secret" "hi" none ⟨"a.png", 7⟩ (by decide) (by decide)
      (by decide) (by decide) (by decide) (by decide)).2.1,
   (reclaim_on_next_write id id ⟨[⟨"alice", "secret"⟩], [], [⟨"blob", 500000000⟩]⟩
      "t1" "123" "alice" "secret" "hi" none ⟨"a.png", 7⟩ (by decide) (by decide)
      (by decide) (by decide) (by decide) (by decide)).2.2.2.2⟩

/-- C8 counterexample: `POST /messages` with an unregistered username is
answered with status 401 (`User not found`), not 400 as the claim states. -/
theorem sendMessage_unknown_401_counterexample :
    (send_message ⟨[], [], []⟩ "t0" (some ⟨"bob", "hi", none⟩)).1 =
      Resp.error "User not found" 401 ∧
    Resp.status (send_message ⟨[], [], []⟩ "t0" (some ⟨"bob", "hi", none⟩)).1 ≠ 400 := by
  decide

/-- C8 amended: success yields 200 and missing client data yields 400, but an
unknown username on `POST /messages` is mapped to 401 — the same status as
unauthorized credentials on login — rather than 400. -/
theorem statusMapping_amended (hp : String → String) (s : ServerState)
    (now_iso u p m : String) (t : Option String)
    (hu : u ≠ "") (hpw : p ≠ "") (hm : m ≠ "")
    (hunk : u ∉ s.users.map UserRow.username) :
    Resp.status (register hp s (some ⟨u, p⟩)).1 = 200 ∧
    Resp.status (send_message s now_iso (some ⟨u, "", t⟩)).1 = 400 ∧
    Resp.status (send_message s now_iso none).1 = 400 ∧
    Resp.status (login hp s (some ⟨u, p⟩)) = 401 ∧
    Resp.status (send_message s now_iso (some ⟨u, m, t⟩)).1 = 401 := by
  refine ⟨?_, ?_, ?_, ?_, ?_⟩
  · simp [register, hu, hpw, hunk, Resp.status]
  · simp [send_message, Resp.status]
  · simp [send_message, Resp.status]
  · simp [login, hu, hpw, find?_username_eq_none s.users u hunk, Resp.status]
  · simp [send_message, hu, hm, hunk, Resp.status]

/-- Witness for the amended C8 on the empty state and username "bob". -/
theorem statusMapping_amended_witness :
    Resp.status (register id ⟨[], [], []⟩ (some ⟨"bob", "pw"⟩)).1 = 200 ∧
    Resp.status (send_message ⟨[], [], []⟩ "t0" (some ⟨"bob", "hi", none⟩)).1 = 401 :=
  ⟨(statusMapping_amended id ⟨[], [], []⟩ "t0" "bob" "pw" "hi" none
      (by decide) (by decide) (by decide) (by simp)).1,
   (statusMapping_amended id ⟨[], [], []⟩ "t0" "bob" "pw" "hi" none
      (by decide) (by decide) (by decide) (by simp)).2.2.2.2⟩
